import Mathlib

/-!
Verification development for the OTP-gated email-verification workflow and the
application-submission pipeline of the IIT_form repository.

The JavaScript source is shallowly embedded: the process-wide `otpStorage`
`Map` becomes a function from string keys to stored values, wall-clock time
(`Date.now()`, milliseconds) is an explicit `Nat` argument, `Math.random()` is
an explicit rational in `[0,1)`, and the fallible external collaborators
(email delivery, database persistence) are explicit outcome parameters.
-/

namespace IITForm

/-! ## Decimal rendering of a JavaScript number (`Number.prototype.toString`) -/

/-- Decimal digit characters of a natural number, most significant first,
eating one unit of fuel per digit; `fuel ≥ n` is always enough. Empty for 0. -/
def decCharsAux (fuel n : Nat) : List Char :=
  match fuel with
  | 0 => []
  | fuel + 1 => if n = 0 then [] else decCharsAux fuel (n / 10) ++ [Char.ofNat (48 + n % 10)]

/-- `n.toString()` on a JavaScript non-negative integer. -/
def jsNatToString (n : Nat) : String :=
  if n = 0 then "0" else String.mk (decCharsAux n n)

/-! ## Email normalization and validation (`otpController.js`) -/

/-- Whitespace class of the regex `\s` (ASCII part, which is all that matters
for the properties verified here). -/
def isWsChar (c : Char) : Bool :=
  c = ' ' || c = '\t' || c = '\n' || c = '\r' || c = '\x0b' || c = '\x0c'

/-- A character admissible in the atoms `[^\s@]+` of the email regex. -/
def okAtomChar (c : Char) : Bool :=
  !isWsChar c && c ≠ '@'

/-- `String.prototype.toLowerCase()`, character by character (the inputs of
interest are ASCII, where JavaScript and `Char.toLower` agree). -/
def jsToLower (s : String) : String :=
  String.mk (s.toList.map Char.toLower)

/-- `String.prototype.trim()`: strip leading and trailing whitespace. -/
def jsTrim (s : String) : String :=
  String.mk (((s.toList.dropWhile isWsChar).reverse.dropWhile isWsChar).reverse)

/-- The test `/^[^\s@]+@[^\s@]+\.[^\s@]+$/.test(email)` from `sendOTP`:
a non-empty local part without whitespace or `@`, exactly one `@`, and a
domain whose interior (neither first nor last character) contains a dot. -/
def validEmail (s : String) : Bool :=
  let l := s.toList
  match l.findIdx? (· = '@') with
  | none => false
  | some i =>
    let localPart := l.take i
    let domain := l.drop (i + 1)
    !localPart.isEmpty && localPart.all okAtomChar &&
      domain.all okAtomChar && ((domain.drop 1).dropLast.contains '.')

/-- `email.toLowerCase().trim()`, the normalization applied by every endpoint. -/
def normalizeEmail (email : String) : String :=
  jsTrim (jsToLower email)

/-- Key of the cooldown timestamp entry for an address. -/
def tsKey (email : String) : String :=
  normalizeEmail email ++ "_timestamp"

/-- Key of the verified-flag entry for an address. -/
def verKey (email : String) : String :=
  normalizeEmail email ++ "_verified"

/-! ## The process-wide `otpStorage` map -/

/-- Values that the controllers place into `otpStorage`: the OTP record
`{ otp, expiryTime }` at the plain address key, the issuance timestamp at
`<address>_timestamp`, and the boolean `true` at `<address>_verified`. -/
inductive StorageValue where
  | otpData (otp : String) (expiryTime : Nat)
  | timestamp (t : Nat)
  | verifiedFlag
deriving DecidableEq, Repr

/-- The shared `otpStorage` map, keyed by strings. -/
def Storage : Type := String → Option StorageValue

def Storage.empty : Storage := fun _ => none

def Storage.set (st : Storage) (k : String) (v : StorageValue) : Storage :=
  fun k' => if k' = k then some v else st k'

def Storage.del (st : Storage) (k : String) : Storage :=
  fun k' => if k' = k then none else st k'

/-- JavaScript truthiness of `otpStorage.get(key)`: `undefined` and the
number `0` are falsy; objects and `true` are truthy. -/
def isTruthy : Option StorageValue → Bool
  | none => false
  | some (.otpData _ _) => true
  | some (.timestamp t) => t != 0
  | some .verifiedFlag => true

/-! ## OTP controller (`sendOTP`, `verifyOTP`, `checkVerification`) -/

/-- `Math.floor(100000 + Math.random() * 900000).toString()`, with the
`Math.random()` draw made explicit as a rational `rand ∈ [0,1)`. -/
def generateOTP (rand : ℚ) : String :=
  jsNatToString (Int.toNat ⌊(100000 : ℚ) + rand * 900000⌋)

/-- A JSON response of the OTP endpoints: HTTP status, `success`, `message`,
and the `retryAfterSeconds` field when the body carries one (`none` when the
field is absent from the body). -/
structure OtpResponse where
  status : Nat
  success : Bool
  message : String
  retryAfterSeconds : Option Nat
deriving DecidableEq, Repr

/-- Result of `sendOTP`: the HTTP response, the storage afterwards, and
whether the outbound delivery attempt succeeded (observable only in logs). -/
structure SendOtpResult where
  response : OtpResponse
  storage : Storage
  emailDelivered : Bool

/-- The cooldown test of `sendOTP`:
`lastSent && Date.now() - lastSent < 60000`. Keys ending in `_timestamp`
only ever hold `timestamp` values; any other value is never written there. -/
def cooldownActive (st : Storage) (email : String) (now : Nat) : Bool :=
  match st (tsKey email) with
  | some (.timestamp t) => t != 0 && now - t < 60000
  | _ => false

/-- `sendOTP(req, res)` from `otpController.js`. `rand` is the
`Math.random()` draw and `deliveryOk` the outcome of `transporter.sendMail`
(whose failure is caught and only logged). -/
def sendOTP (st : Storage) (email : String) (now : Nat) (rand : ℚ)
    (deliveryOk : Bool) : SendOtpResult :=
  if !validEmail email then
    ⟨⟨400, false, "Please provide a valid email address", none⟩, st, false⟩
  else if cooldownActive st email now then
    ⟨⟨429, false, "Please wait before requesting another OTP", none⟩, st, false⟩
  else
    let otp := generateOTP rand
    let expiryTime := now + 10 * 60 * 1000
    let st1 := ((st.set (normalizeEmail email) (.otpData otp expiryTime)).set
      (tsKey email) (.timestamp now))
    ⟨⟨200, true, "OTP sent successfully to your email address", none⟩, st1, deliveryOk⟩

/-- The distinct exit branches of `verifyOTP`. -/
inductive VerifyOutcome where
  | missingFields | notFound | expired | mismatch | verified
deriving DecidableEq, Repr

/-- Result of `verifyOTP`: response, branch taken, storage afterwards.
The `setTimeout` that erases the verified flag 30 minutes later is a pending
asynchronous action and is not part of the returned state. -/
structure VerifyResult where
  response : OtpResponse
  outcome : VerifyOutcome
  storage : Storage

/-- `verifyOTP(req, res)` from `otpController.js`. -/
def verifyOTP (st : Storage) (email otp : String) (now : Nat) : VerifyResult :=
  if email = "" || otp = "" then
    ⟨⟨400, false, "Email and OTP are required", none⟩, .missingFields, st⟩
  else
    let ne := normalizeEmail email
    match st ne with
    | none => ⟨⟨400, false, "OTP not found. Please request a new OTP.", none⟩, .notFound, st⟩
    | some storedData =>
      if !isTruthy (some storedData) then
        ⟨⟨400, false, "OTP not found. Please request a new OTP.", none⟩, .notFound, st⟩
      else
        match storedData with
        | .otpData storedOtp expiryTime =>
          if expiryTime < now then
            ⟨⟨400, false, "OTP has expired. Please request a new OTP.", none⟩, .expired,
              ((st.del ne).del (tsKey email))⟩
          else if storedOtp ≠ otp then
            ⟨⟨400, false, "Invalid OTP. Please try again.", none⟩, .mismatch, st⟩
          else
            ⟨⟨200, true, "Email verified successfully", none⟩, .verified,
              (((st.del ne).del (tsKey email)).set (verKey email) .verifiedFlag)⟩
        | _ =>
          -- a non-record truthy value at the plain address key (never written by
          -- any endpoint): `storedData.otp !== otp` compares `undefined` with a
          -- string and takes the invalid-OTP branch
          ⟨⟨400, false, "Invalid OTP. Please try again.", none⟩, .mismatch, st⟩

/-- `checkVerification`: the `verified` field of its 200 response,
`otpStorage.get(verificationKey) || false`. -/
def checkVerification (st : Storage) (email : String) : Bool :=
  isTruthy (st (verKey email))

/-! ## Submission pipeline (`submitApplication`, `applicationController.js`) -/

/-- One entry of the `educationalQualifications` array, with the fields the
per-entry validation loop inspects. -/
structure Qualification where
  institute : String
  examPassed : String
  nameOfExamination : String
  yearOfPassing : String
  marksPercentage : String
deriving DecidableEq, Repr

/-- The validation loop body: every inspected field must be present and,
where the code calls `.trim()`, non-blank. -/
def qualValid (q : Qualification) : Bool :=
  jsTrim q.institute ≠ "" && q.examPassed ≠ "" && jsTrim q.nameOfExamination ≠ "" &&
    jsTrim q.yearOfPassing ≠ "" && jsTrim q.marksPercentage ≠ ""

/-- A persisted application record, restricted to the fields the submission
pipeline reads back (duplicate detection and the 409 body). -/
structure AppRecord where
  applicationId : String
  email : String
  submissionTime : Nat
deriving DecidableEq, Repr

/-- An incoming multipart submission, after multer and JSON parsing have run:
`multerError` stands for an upload-middleware error (no file staged in that
case), `jsonParseOk` for the `JSON.parse` of the two array fields, `file` for
the staged document's path. Absent body arrays are `none`. -/
structure SubmitRequest where
  multerError : Bool
  jsonParseOk : Bool
  email : String
  declarationAgreed : String
  file : Option String
  educationalQualifications : Option (List Qualification)
  experience : Option (List String)

/-- Outcome of `new Application(data); await application.save()`:
success assigns an application id; the failure modes are the MongoDB
duplicate-key error (11000), a mongoose `ValidationError`, and anything else. -/
inductive PersistOutcome where
  | ok (assignedId : String)
  | dupKeyError
  | validationError
  | otherError
deriving DecidableEq, Repr

/-- The distinct exit branches of `submitApplication`. -/
inductive SubmitTag where
  | multerRejected | parseError | emailNotVerified | declarationMissing
  | duplicateEmail | documentMissing | qualificationsMissing | experienceMissing
  | qualificationInvalid | created | dupKeyConflict | validationFailed | internalError
deriving DecidableEq, Repr

/-- Result of `submitApplication`: HTTP status, branch, the `applicationId`
of the JSON body when it carries one, whether `deleteUploadedFile` ran on the
staged file, and the storage and database afterwards. -/
structure SubmitResult where
  status : Nat
  tag : SubmitTag
  applicationId : Option String
  fileDeleted : Bool
  storage : Storage
  db : List AppRecord

/-- The duplicate test `Application.findOne({email, submissionTime: {$gte:
new Date(Date.now() - 24*60*60*1000)}})`, reading the first match. -/
def findRecentDuplicate (db : List AppRecord) (ne : String) (now : Nat) :
    Option AppRecord :=
  db.find? (fun a => a.email = ne && now - 24 * 60 * 60 * 1000 ≤ a.submissionTime)

/-- `submitApplication(req, res)` from `applicationController.js`, with the
database passed explicitly and persistence made an explicit outcome. On
success the saved record carries the normalized email and `submissionTime =
now`, and only then is the `<email>_verified` entry deleted. -/
def submitApplication (st : Storage) (db : List AppRecord) (req : SubmitRequest)
    (now : Nat) (persist : PersistOutcome) : SubmitResult :=
  if req.multerError then
    ⟨400, .multerRejected, none, false, st, db⟩
  else if !req.jsonParseOk then
    ⟨400, .parseError, none, req.file.isSome, st, db⟩
  else if !isTruthy (st (verKey req.email)) then
    ⟨400, .emailNotVerified, none, req.file.isSome, st, db⟩
  else if req.declarationAgreed ≠ "true" then
    ⟨400, .declarationMissing, none, req.file.isSome, st, db⟩
  else
    match findRecentDuplicate db (normalizeEmail req.email) now with
    | some existing =>
      ⟨409, .duplicateEmail, some existing.applicationId, req.file.isSome, st, db⟩
    | none =>
      match req.file with
      | none => ⟨400, .documentMissing, none, false, st, db⟩
      | some _ =>
        match req.educationalQualifications with
        | none => ⟨400, .qualificationsMissing, none, true, st, db⟩
        | some quals =>
          if quals.isEmpty then
            ⟨400, .qualificationsMissing, none, true, st, db⟩
          else
            match req.experience with
            | none => ⟨400, .experienceMissing, none, true, st, db⟩
            | some exps =>
              if exps.isEmpty then
                ⟨400, .experienceMissing, none, true, st, db⟩
              else if !quals.all qualValid then
                ⟨400, .qualificationInvalid, none, true, st, db⟩
              else
                match persist with
                | .ok newId =>
                  ⟨201, .created, some newId, false,
                    st.del (verKey req.email),
                    db ++ [⟨newId, normalizeEmail req.email, now⟩]⟩
                | .dupKeyError => ⟨409, .dupKeyConflict, none, true, st, db⟩
                | .validationError => ⟨400, .validationFailed, none, true, st, db⟩
                | .otherError => ⟨500, .internalError, none, true, st, db⟩

/-! ## Bulk email dispatch (`sendBulkEmails`, `emailController.js`) -/

/-- A recipient of the bulk loop: an application matched by the request. -/
structure Recipient where
  applicationId : String
  email : String
  name : String
deriving DecidableEq, Repr

/-- Per-recipient outcome recorded in `emailResults`. -/
inductive SendStatus where
  | sent | failed
deriving DecidableEq, Repr

/-- One entry of the `emailResults` list. -/
structure EmailResult where
  applicationId : String
  email : String
  status : SendStatus
deriving DecidableEq, Repr

/-- The `summary` object of the bulk response. -/
structure BulkSummary where
  total : Nat
  sent : Nat
  failed : Nat
deriving DecidableEq, Repr

/-- The sequential send loop: the `i`-th iteration's try-block either
completes (`outcome i = true`, entry `sent`) or throws into the catch block
(`failed` entry) — either way the loop continues with the next recipient. -/
def bulkResults : List Recipient → (Nat → Bool) → List EmailResult
  | [], _ => []
  | a :: rest, outcome =>
    ⟨a.applicationId, a.email, if outcome 0 then .sent else .failed⟩ ::
      bulkResults rest (fun i => outcome (i + 1))

/-- The `summary` computed after the loop: `emailResults.length` and the two
`filter` counts. -/
def bulkSummary (results : List EmailResult) : BulkSummary :=
  ⟨results.length,
    (results.filter (fun r => r.status = .sent)).length,
    (results.filter (fun r => r.status = .failed)).length⟩

/-- The 200 response of `sendBulkEmails` once the batch-level guards have
passed: the per-recipient outcome list and its summary. -/
structure BulkResponse where
  results : List EmailResult
  summary : BulkSummary
deriving DecidableEq, Repr

/-- `sendBulkEmails` from the loop at line 432 onward, with the matched
applications and the per-iteration outcomes explicit. -/
def sendBulkEmails (apps : List Recipient) (outcome : Nat → Bool) : BulkResponse :=
  let results := bulkResults apps outcome
  ⟨results, bulkSummary results⟩

/-! ## Supporting lemmas: decimal rendering -/

lemma decCharsAux_zero (fuel : Nat) : decCharsAux fuel 0 = [] := by
  cases fuel <;> simp [decCharsAux]

lemma decCharsAux_length (k : Nat) :
    ∀ fuel n, 10 ^ k ≤ n → n < 10 ^ (k + 1) → k < fuel →
      (decCharsAux fuel n).length = k + 1 := by
  induction k with
  | zero =>
    intro fuel n h1 h2 hf
    match fuel, hf with
    | fuel + 1, _ =>
      rw [decCharsAux, if_neg (by omega)]
      have hd : n / 10 = 0 := Nat.div_eq_of_lt (by simpa using h2)
      rw [hd, decCharsAux_zero]
      rfl
  | succ k ih =>
    intro fuel n h1 h2 hf
    match fuel, hf with
    | fuel + 1, hf =>
      have hn0 : n ≠ 0 := by
        have : (0 : Nat) < 10 ^ (k + 1) := Nat.pos_pow_of_pos _ (by norm_num)
        omega
      rw [decCharsAux, if_neg hn0]
      have hb1 : 10 ^ k ≤ n / 10 := by
        rw [Nat.le_div_iff_mul_le (by norm_num)]
        calc 10 ^ k * 10 = 10 ^ (k + 1) := (pow_succ 10 k).symm
        _ ≤ n := h1
      have hb2 : n / 10 < 10 ^ (k + 1) := by
        rw [Nat.div_lt_iff_lt_mul (by norm_num)]
        calc n < 10 ^ (k + 1 + 1) := h2
        _ = 10 ^ (k + 1) * 10 := pow_succ 10 (k + 1)
      have := ih fuel (n / 10) hb1 hb2 (by omega)
      simp [this]

lemma decCharsAux_head (k : Nat) :
    ∀ fuel n, 10 ^ k ≤ n → n < 10 ^ (k + 1) → k < fuel →
      (decCharsAux fuel n).head? = some (Char.ofNat (48 + n / 10 ^ k)) := by
  induction k with
  | zero =>
    intro fuel n h1 h2 hf
    match fuel, hf with
    | fuel + 1, _ =>
      rw [decCharsAux, if_neg (by omega)]
      have hd : n / 10 = 0 := Nat.div_eq_of_lt (by simpa using h2)
      rw [hd, decCharsAux_zero]
      have hm : n % 10 = n := Nat.mod_eq_of_lt (by simpa using h2)
      simp [hm]
  | succ k ih =>
    intro fuel n h1 h2 hf
    match fuel, hf with
    | fuel + 1, hf =>
      have hn0 : n ≠ 0 := by
        have : (0 : Nat) < 10 ^ (k + 1) := Nat.pos_pow_of_pos _ (by norm_num)
        omega
      rw [decCharsAux, if_neg hn0]
      have hb1 : 10 ^ k ≤ n / 10 := by
        rw [Nat.le_div_iff_mul_le (by norm_num)]
        calc 10 ^ k * 10 = 10 ^ (k + 1) := (pow_succ 10 k).symm
        _ ≤ n := h1
      have hb2 : n / 10 < 10 ^ (k + 1) := by
        rw [Nat.div_lt_iff_lt_mul (by norm_num)]
        calc n < 10 ^ (k + 1 + 1) := h2
        _ = 10 ^ (k + 1) * 10 := pow_succ 10 (k + 1)
      have hlen := decCharsAux_length k fuel (n / 10) hb1 hb2 (by omega)
      have hne : decCharsAux fuel (n / 10) ≠ [] := by
        intro h
        rw [h] at hlen
        simp at hlen
      have hih := ih fuel (n / 10) hb1 hb2 (by omega)
      rw [List.head?_append_of_ne_nil _ hne]
      rw [hih]
      congr 2
      rw [Nat.div_div_eq_div_mul]
      congr 1
      rw [pow_succ]
      ring_nf

lemma decCharsAux_digits :
    ∀ fuel n c, c ∈ decCharsAux fuel n → '0' ≤ c ∧ c ≤ '9' := by
  intro fuel
  induction fuel with
  | zero => intro n c h; simp [decCharsAux] at h
  | succ fuel ih =>
    intro n c h
    rw [decCharsAux] at h
    by_cases hn : n = 0
    · simp [hn] at h
    · rw [if_neg hn] at h
      rcases List.mem_append.mp h with h | h
      · exact ih _ _ h
      · simp at h
        subst h
        have hd : n % 10 < 10 := Nat.mod_lt _ (by norm_num)
        interval_cases h : n % 10 <;> decide

lemma jsNatToString_toList (n : Nat) (h : n ≠ 0) :
    (jsNatToString n).toList = decCharsAux n n := by
  rw [jsNatToString, if_neg h]
  rfl

lemma jsNatToString_six (n : Nat) (h1 : 100000 ≤ n) (h2 : n ≤ 999999) :
    (jsNatToString n).length = 6 ∧
      (jsNatToString n).toList.head? = some (Char.ofNat (48 + n / 100000)) ∧
      ∀ c ∈ (jsNatToString n).toList, '0' ≤ c ∧ c ≤ '9' := by
  have hn0 : n ≠ 0 := by omega
  have hb1 : (10 : Nat) ^ 5 ≤ n := by norm_num; omega
  have hb2 : n < 10 ^ (5 + 1) := by norm_num; omega
  have hf : 5 < n := by omega
  refine ⟨?_, ?_, ?_⟩
  · have : (jsNatToString n).length = (jsNatToString n).toList.length := rfl
    rw [this, jsNatToString_toList n hn0]
    exact decCharsAux_length 5 n n hb1 hb2 hf
  · rw [jsNatToString_toList n hn0]
    have := decCharsAux_head 5 n n hb1 hb2 hf
    rw [this]
    norm_num
  · rw [jsNatToString_toList n hn0]
    intro c hc
    exact decCharsAux_digits n n c hc

lemma digitChar_ne_zero (d : Nat) (h1 : 1 ≤ d) (h2 : d ≤ 9) :
    Char.ofNat (48 + d) ≠ '0' := by
  interval_cases d <;> decide

lemma jsNatToString_ne_empty (n : Nat) : jsNatToString n ≠ "" := by
  by_cases h : n = 0
  · subst h; decide
  · intro hc
    have hl : (jsNatToString n).toList = [] := by rw [hc]; rfl
    rw [jsNatToString_toList n h] at hl
    match hn : n, h with
    | m + 1, _ =>
      rw [decCharsAux] at hl
      rw [if_neg (by omega)] at hl
      simp at hl

/-! ## Supporting lemmas: the generated code -/

/-- The numeric value `Math.floor(100000 + rand * 900000)`. -/
def otpVal (rand : ℚ) : Nat :=
  Int.toNat ⌊(100000 : ℚ) + rand * 900000⌋

lemma generateOTP_eq (rand : ℚ) : generateOTP rand = jsNatToString (otpVal rand) := rfl

lemma otpVal_ofDiv (k : Nat) : otpVal ((k : ℚ) / 900000) = 100000 + k := by
  unfold otpVal
  have h1 : ((k : ℚ) / 900000) * 900000 = (k : ℚ) := by
    field_simp
  rw [h1]
  have h2 : ((100000 : ℚ) + (k : ℚ)) = (((100000 + k : ℕ) : ℤ) : ℚ) := by
    push_cast; ring
  rw [h2, Int.floor_intCast]
  omega

lemma otpVal_bounds (rand : ℚ) (h0 : 0 ≤ rand) (h1 : rand < 1) :
    100000 ≤ otpVal rand ∧ otpVal rand ≤ 999999 := by
  unfold otpVal
  have hlo : (100000 : ℤ) ≤ ⌊(100000 : ℚ) + rand * 900000⌋ := by
    apply Int.le_floor.mpr
    have : (0 : ℚ) ≤ rand * 900000 := by positivity
    push_cast
    linarith
  have hhi : ⌊(100000 : ℚ) + rand * 900000⌋ < 1000000 := by
    apply Int.floor_lt.mpr
    have : rand * 900000 < 1 * 900000 := by
      apply mul_lt_mul_of_pos_right h1
      norm_num
    push_cast
    linarith
  omega

/-- For rand in `[0,1)` the generated code is a 6-character string of decimal
digits whose first character is not '0'. -/
lemma generateOTP_spec (rand : ℚ) (h0 : 0 ≤ rand) (h1 : rand < 1) :
    (generateOTP rand).length = 6 ∧
      (generateOTP rand).toList.head? ≠ some '0' ∧
      ∀ c ∈ (generateOTP rand).toList, '0' ≤ c ∧ c ≤ '9' := by
  obtain ⟨hlo, hhi⟩ := otpVal_bounds rand h0 h1
  obtain ⟨hlen, hhead, hdig⟩ := jsNatToString_six (otpVal rand) hlo hhi
  rw [generateOTP_eq]
  refine ⟨hlen, ?_, hdig⟩
  rw [hhead]
  have hd1 : 1 ≤ otpVal rand / 100000 := by omega
  have hd2 : otpVal rand / 100000 ≤ 9 := by omega
  intro hcontra
  exact digitChar_ne_zero _ hd1 hd2 (by injection hcontra)

lemma generateOTP_ne_empty (rand : ℚ) : generateOTP rand ≠ "" :=
  jsNatToString_ne_empty _

/-! ## Supporting lemmas: storage keys -/

lemma data_append (s t : String) : (s ++ t).data = s.data ++ t.data := rfl

lemma self_ne_append (s t : String) (h : t.data ≠ []) : s ≠ s ++ t := by
  intro hc
  have hlen := congrArg (fun x => x.data.length) hc
  simp only [data_append, List.length_append] at hlen
  have : t.data.length ≠ 0 := fun h0 => h (List.eq_nil_of_length_eq_zero h0)
  omega

lemma append_ne_append (s a b : String) (h : a.data.length ≠ b.data.length) :
    s ++ a ≠ s ++ b := by
  intro hc
  have hlen := congrArg (fun x => x.data.length) hc
  simp only [data_append, List.length_append] at hlen
  omega

lemma key_ne_tsKey (email : String) : normalizeEmail email ≠ tsKey email :=
  self_ne_append _ _ (by decide)

lemma key_ne_verKey (email : String) : normalizeEmail email ≠ verKey email :=
  self_ne_append _ _ (by decide)

lemma tsKey_ne_verKey (email : String) : tsKey email ≠ verKey email :=
  append_ne_append _ _ _ (by decide)

lemma Storage.set_self (st : Storage) (k : String) (v : StorageValue) :
    (st.set k v) k = some v := by
  simp [Storage.set]

lemma Storage.set_other (st : Storage) (k : String) (v : StorageValue) (k' : String)
    (h : k' ≠ k) : (st.set k v) k' = st k' := by
  simp [Storage.set, h]

lemma Storage.del_self (st : Storage) (k : String) : (st.del k) k = none := by
  simp [Storage.del]

lemma Storage.del_other (st : Storage) (k : String) (k' : String) (h : k' ≠ k) :
    (st.del k) k' = st k' := by
  simp [Storage.del, h]

/-! ## Supporting lemmas: branch characterizations of the OTP endpoints -/

lemma sendOTP_issued (st : Storage) (email : String) (now : Nat) (rand : ℚ) (d : Bool)
    (hv : validEmail email = true) (hc : cooldownActive st email now = false) :
    sendOTP st email now rand d =
      ⟨⟨200, true, "OTP sent successfully to your email address", none⟩,
        ((st.set (normalizeEmail email)
          (.otpData (generateOTP rand) (now + 10 * 60 * 1000))).set
          (tsKey email) (.timestamp now)), d⟩ := by
  simp [sendOTP, hv, hc]

lemma sendOTP_limited (st : Storage) (email : String) (now : Nat) (rand : ℚ) (d : Bool)
    (hv : validEmail email = true) (hc : cooldownActive st email now = true) :
    sendOTP st email now rand d =
      ⟨⟨429, false, "Please wait before requesting another OTP", none⟩, st, false⟩ := by
  simp [sendOTP, hv, hc]

lemma verifyOTP_success (st : Storage) (email otp c : String) (e now : Nat)
    (he : email ≠ "") (ho : otp ≠ "")
    (hst : st (normalizeEmail email) = some (.otpData c e))
    (hexp : ¬ e < now) (hmatch : c = otp) :
    verifyOTP st email otp now =
      ⟨⟨200, true, "Email verified successfully", none⟩, .verified,
        (((st.del (normalizeEmail email)).del (tsKey email)).set
          (verKey email) .verifiedFlag)⟩ := by
  simp [verifyOTP, he, ho, hst, hexp, hmatch, isTruthy]

lemma verifyOTP_expired_branch (st : Storage) (email otp c : String) (e now : Nat)
    (he : email ≠ "") (ho : otp ≠ "")
    (hst : st (normalizeEmail email) = some (.otpData c e))
    (hexp : e < now) :
    verifyOTP st email otp now =
      ⟨⟨400, false, "OTP has expired. Please request a new OTP.", none⟩, .expired,
        ((st.del (normalizeEmail email)).del (tsKey email))⟩ := by
  simp [verifyOTP, he, ho, hst, hexp, isTruthy]

lemma verifyOTP_notFound (st : Storage) (email otp : String) (now : Nat)
    (he : email ≠ "") (ho : otp ≠ "")
    (hst : st (normalizeEmail email) = none) :
    verifyOTP st email otp now =
      ⟨⟨400, false, "OTP not found. Please request a new OTP.", none⟩, .notFound, st⟩ := by
  simp [verifyOTP, he, ho, hst]

/-! ## Supporting lemmas: branch characterizations of the submission pipeline -/

lemma submit_notVerified (st : Storage) (db : List AppRecord) (req : SubmitRequest)
    (now : Nat) (persist : PersistOutcome)
    (hm : req.multerError = false) (hp : req.jsonParseOk = true)
    (hv : isTruthy (st (verKey req.email)) = false) :
    submitApplication st db req now persist =
      ⟨400, .emailNotVerified, none, req.file.isSome, st, db⟩ := by
  simp [submitApplication, hm, hp, hv]

lemma submit_duplicate (st : Storage) (db : List AppRecord) (req : SubmitRequest)
    (now : Nat) (persist : PersistOutcome) (existing : AppRecord)
    (hm : req.multerError = false) (hp : req.jsonParseOk = true)
    (hv : isTruthy (st (verKey req.email)) = true)
    (hd : req.declarationAgreed = "true")
    (hfind : findRecentDuplicate db (normalizeEmail req.email) now = some existing) :
    submitApplication st db req now persist =
      ⟨409, .duplicateEmail, some existing.applicationId, req.file.isSome, st, db⟩ := by
  simp [submitApplication, hm, hp, hv, hd, hfind]

/-- Every run either rejects, leaving storage and database untouched, or
returns 201 from the save branch, deleting exactly the verified flag and
appending exactly the new record. -/
lemma submitApplication_cases (st : Storage) (db : List AppRecord) (req : SubmitRequest)
    (now : Nat) (persist : PersistOutcome) :
    ((submitApplication st db req now persist).status ≠ 201 ∧
      (submitApplication st db req now persist).tag ≠ .created ∧
      (submitApplication st db req now persist).storage = st ∧
      (submitApplication st db req now persist).db = db) ∨
    (isTruthy (st (verKey req.email)) = true ∧
      (submitApplication st db req now persist).status = 201 ∧
      (submitApplication st db req now persist).tag = .created ∧
      (submitApplication st db req now persist).storage = st.del (verKey req.email) ∧
      ∃ id, (submitApplication st db req now persist).applicationId = some id ∧
        (submitApplication st db req now persist).db =
          db ++ [⟨id, normalizeEmail req.email, now⟩]) := by
  by_cases hm : req.multerError = true
  · left; simp [submitApplication, hm]
  by_cases hp : req.jsonParseOk = true
  · by_cases hv : isTruthy (st (verKey req.email)) = true
    · by_cases hd : req.declarationAgreed = "true"
      · cases hfind : findRecentDuplicate db (normalizeEmail req.email) now with
        | some existing => left; simp [submitApplication, hm, hp, hv, hd, hfind]
        | none =>
          cases hfile : req.file with
          | none => left; simp [submitApplication, hm, hp, hv, hd, hfind, hfile]
          | some path =>
            cases hq : req.educationalQualifications with
            | none => left; simp [submitApplication, hm, hp, hv, hd, hfind, hfile, hq]
            | some quals =>
              by_cases hqe : quals.isEmpty = true
              · left; simp [submitApplication, hm, hp, hv, hd, hfind, hfile, hq, hqe]
              cases hex : req.experience with
              | none =>
                left; simp [submitApplication, hm, hp, hv, hd, hfind, hfile, hq, hqe, hex]
              | some exps =>
                by_cases hee : exps.isEmpty = true
                · left
                  simp [submitApplication, hm, hp, hv, hd, hfind, hfile, hq, hqe, hex, hee]
                by_cases hqv : quals.all qualValid = true
                · cases persist with
                  | ok newId =>
                    right
                    refine ⟨hv, ?_⟩
                    simp [submitApplication, hm, hp, hv, hd, hfind, hfile, hq, hqe, hex,
                      hee, hqv]
                  | dupKeyError =>
                    left
                    simp [submitApplication, hm, hp, hv, hd, hfind, hfile, hq, hqe, hex,
                      hee, hqv]
                  | validationError =>
                    left
                    simp [submitApplication, hm, hp, hv, hd, hfind, hfile, hq, hqe, hex,
                      hee, hqv]
                  | otherError =>
                    left
                    simp [submitApplication, hm, hp, hv, hd, hfind, hfile, hq, hqe, hex,
                      hee, hqv]
                · left
                  simp [submitApplication, hm, hp, hv, hd, hfind, hfile, hq, hqe, hex,
                    hee, hqv]
      · left; simp [submitApplication, hm, hp, hv, hd]
    · left
      simp only [Bool.not_eq_true] at hv
      simp [submit_notVerified st db req now persist (by simpa using hm) hp hv]
  · left
    simp only [Bool.not_eq_true] at hp
    simp [submitApplication, hm, hp]

/-! ## Supporting lemmas: verify-branch inversion and small facts -/

lemma validEmail_ne_empty (email : String) (h : validEmail email = true) : email ≠ "" := by
  intro hc
  subst hc
  simp [validEmail] at h

/-- Either `verifyOTP` did not take the success branch, or it did and the
resulting storage is the success-branch storage. -/
lemma verifyOTP_cases (st : Storage) (email otp : String) (now : Nat) :
    (verifyOTP st email otp now).outcome ≠ .verified ∨
    ((verifyOTP st email otp now).outcome = .verified ∧
      (verifyOTP st email otp now).storage =
        ((st.del (normalizeEmail email)).del (tsKey email)).set
          (verKey email) .verifiedFlag) := by
  by_cases he : email = ""
  · left; simp [verifyOTP, he]
  by_cases ho : otp = ""
  · left; simp [verifyOTP, he, ho]
  cases hst : st (normalizeEmail email) with
  | none => left; simp [verifyOTP, he, ho, hst]
  | some v =>
    cases v with
    | otpData c e =>
      by_cases hexp : e < now
      · left; simp [verifyOTP_expired_branch st email otp c e now he ho hst hexp]
      by_cases hmatch : c = otp
      · right; simp [verifyOTP_success st email otp c e now he ho hst hexp hmatch]
      · left; simp [verifyOTP, he, ho, hst, hexp, hmatch, isTruthy]
    | timestamp t =>
      by_cases ht : t = 0
      · left; simp [verifyOTP, he, ho, hst, ht, isTruthy]
      · left; simp [verifyOTP, he, ho, hst, ht, isTruthy]
    | verifiedFlag => left; simp [verifyOTP, he, ho, hst, isTruthy]

/-! ## Supporting lemmas: bulk dispatch -/

lemma bulkResults_map (apps : List Recipient) :
    ∀ outcome, (bulkResults apps outcome).map (fun r => r.applicationId) =
      apps.map (fun a => a.applicationId) := by
  induction apps with
  | nil => intro outcome; rfl
  | cons a rest ih => intro outcome; simp [bulkResults, ih]

lemma length_filter_status (results : List EmailResult) :
    results.length = (results.filter (fun r => r.status = .sent)).length +
      (results.filter (fun r => r.status = .failed)).length := by
  induction results with
  | nil => rfl
  | cons r rest ih =>
    cases hs : r.status <;> simp [List.filter_cons, hs] <;> omega

/-! ## Claims -/

/-- C4 (amended): every code generated by `generateOTP` for a random draw in
`[0,1)` is a 6-character string of decimal digits rendering the value
`Math.floor(100000 + rand * 900000)`, which lies in 100000–999999; the first
character is therefore never '0'. -/
theorem generated_code_is_six_digits (rand : ℚ) (h0 : 0 ≤ rand) (h1 : rand < 1) :
    (generateOTP rand).length = 6 ∧
      (∀ c ∈ (generateOTP rand).toList, '0' ≤ c ∧ c ≤ '9') ∧
      generateOTP rand = jsNatToString (otpVal rand) ∧
      100000 ≤ otpVal rand ∧ otpVal rand ≤ 999999 ∧
      (generateOTP rand).toList.head? ≠ some '0' := by
  obtain ⟨hlen, hhead, hdig⟩ := generateOTP_spec rand h0 h1
  obtain ⟨hlo, hhi⟩ := otpVal_bounds rand h0 h1
  exact ⟨hlen, hdig, generateOTP_eq rand, hlo, hhi, hhead⟩

/-- C4 witness: the six-digit facts instantiated at the draw 1/2. -/
theorem generated_code_is_six_digits_witness :
    (0 : ℚ) ≤ 1 / 2 ∧ (1 / 2 : ℚ) < 1 ∧ (generateOTP (1 / 2)).length = 6 :=
  ⟨by norm_num, by norm_num,
    (generated_code_is_six_digits (1 / 2) (by norm_num) (by norm_num)).1⟩

/-- C4 counterexample: no random outcome produces a code whose first
character is '0', and the code "000000" is never generated; the claimed full
range 000000–999999 with leading zeros is false. -/
theorem generated_code_no_leading_zero :
    ¬ ∃ rand : ℚ, 0 ≤ rand ∧ rand < 1 ∧
      ((generateOTP rand).toList.head? = some '0' ∨ generateOTP rand = "000000") := by
  rintro ⟨rand, h0, h1, h | h⟩
  · exact (generateOTP_spec rand h0 h1).2.1 h
  · have hh := (generateOTP_spec rand h0 h1).2.1
    rw [h] at hh
    exact hh (by decide)

/-- C5 (amended): a rate-limited issue-code request is answered with a 429
response whose body carries only a fixed message — no `retryAfterSeconds`
field — so the caller cannot compute the remaining wait time from it. -/
theorem rate_limited_response_has_no_retry_after (st : Storage) (email : String)
    (now : Nat) (rand : ℚ) (d : Bool)
    (hv : validEmail email = true) (hc : cooldownActive st email now = true) :
    (sendOTP st email now rand d).response.status = 429 ∧
      (sendOTP st email now rand d).response.retryAfterSeconds = none ∧
      (sendOTP st email now rand d).response.message =
        "Please wait before requesting another OTP" ∧
      (sendOTP st email now rand d).storage = st := by
  rw [sendOTP_limited st email now rand d hv hc]
  exact ⟨rfl, rfl, rfl, rfl⟩

/-- C5 witness: the amended response facts at a concrete rate-limited state. -/
theorem rate_limited_response_has_no_retry_after_witness :
    validEmail "b@x.com" = true ∧
      cooldownActive (Storage.empty.set "b@x.com_timestamp" (.timestamp 1000000))
        "b@x.com" 1010000 = true ∧
      (sendOTP (Storage.empty.set "b@x.com_timestamp" (.timestamp 1000000))
        "b@x.com" 1010000 0 true).response.retryAfterSeconds = none :=
  ⟨by decide, by decide,
    (rate_limited_response_has_no_retry_after
      (Storage.empty.set "b@x.com_timestamp" (.timestamp 1000000))
      "b@x.com" 1010000 0 true (by decide) (by decide)).2.1⟩

/-- C5 counterexample: a second request for the same address 10 seconds
after the first is answered 429, but the body has no `retryAfterSeconds`
value at all (in particular not one of about 50 seconds). -/
theorem rate_limited_scenario_lacks_retry_after :
    ((sendOTP (sendOTP Storage.empty "b@x.com" 1000000 0 true).storage
      "b@x.com" 1010000 0 true).response.status = 429) ∧
    ((sendOTP (sendOTP Storage.empty "b@x.com" 1000000 0 true).storage
      "b@x.com" 1010000 0 true).response.retryAfterSeconds = none) := by
  have h1 := sendOTP_issued Storage.empty "b@x.com" 1000000 0 true (by decide) (by decide)
  rw [h1]
  have hc : cooldownActive
      ((Storage.empty.set (normalizeEmail "b@x.com")
        (.otpData (generateOTP 0) (1000000 + 10 * 60 * 1000))).set
        (tsKey "b@x.com") (.timestamp 1000000)) "b@x.com" 1010000 = true := by
    rw [cooldownActive, Storage.set_self]
    decide
  rw [sendOTP_limited _ _ _ _ _ (by decide) hc]
  exact ⟨rfl, rfl⟩

/-- C6: confirming after the code's expiry deadline takes the expired
branch, deletes the stored code, and a later confirm with the exact code
string that was issued finds nothing and fails with the not-found branch. -/
theorem expired_code_is_removed (st : Storage) (email otp c : String) (e now : Nat)
    (he : email ≠ "") (ho : otp ≠ "") (hc : c ≠ "")
    (hst : st (normalizeEmail email) = some (.otpData c e))
    (hexp : e < now) :
    (verifyOTP st email otp now).outcome = .expired ∧
      (verifyOTP st email otp now).response.status = 400 ∧
      (verifyOTP st email otp now).storage (normalizeEmail email) = none ∧
      ∀ now2, (verifyOTP (verifyOTP st email otp now).storage email c now2).outcome
        = .notFound := by
  rw [verifyOTP_expired_branch st email otp c e now he ho hst hexp]
  have hnone : ((st.del (normalizeEmail email)).del (tsKey email))
      (normalizeEmail email) = none := by
    rw [Storage.del_other _ _ _ (key_ne_tsKey email), Storage.del_self]
  refine ⟨rfl, rfl, hnone, ?_⟩
  intro now2
  rw [verifyOTP_notFound _ email c now2 he hc hnone]

/-- C6 witness: expiry-then-notFound at a concrete state and clock. -/
theorem expired_code_is_removed_witness :
    ((Storage.empty.set "a@x.com" (.otpData "123456" 1000)) "a@x.com"
        = some (.otpData "123456" 1000)) ∧
      (1000 : Nat) < 2000000 ∧
      (verifyOTP (Storage.empty.set "a@x.com" (.otpData "123456" 1000))
        "a@x.com" "123456" 2000000).outcome = .expired :=
  ⟨by decide, by decide,
    (expired_code_is_removed (Storage.empty.set "a@x.com" (.otpData "123456" 1000))
      "a@x.com" "123456" "123456" 1000 2000000 (by decide) (by decide) (by decide)
      (by decide) (by decide)).1⟩

/-- C7: when outbound delivery fails during issuance, the response and the
stored state are identical to the successful-delivery run — a 200 success —
and the stored code remains confirmable within the expiry window. -/
theorem delivery_failure_not_propagated (st : Storage) (email : String)
    (now : Nat) (rand : ℚ)
    (hv : validEmail email = true) (hc : cooldownActive st email now = false) :
    (sendOTP st email now rand false).response.status = 200 ∧
      (sendOTP st email now rand false).response.success = true ∧
      (sendOTP st email now rand false).response =
        (sendOTP st email now rand true).response ∧
      (sendOTP st email now rand false).storage =
        (sendOTP st email now rand true).storage ∧
      (sendOTP st email now rand false).storage (normalizeEmail email) =
        some (.otpData (generateOTP rand) (now + 10 * 60 * 1000)) ∧
      ∀ now2, ¬ now + 10 * 60 * 1000 < now2 →
        (verifyOTP (sendOTP st email now rand false).storage email
          (generateOTP rand) now2).outcome = .verified := by
  rw [sendOTP_issued st email now rand false hv hc,
    sendOTP_issued st email now rand true hv hc]
  have hlook : ((st.set (normalizeEmail email)
      (.otpData (generateOTP rand) (now + 10 * 60 * 1000))).set
      (tsKey email) (.timestamp now)) (normalizeEmail email) =
      some (.otpData (generateOTP rand) (now + 10 * 60 * 1000)) := by
    rw [Storage.set_other _ _ _ _ (key_ne_tsKey email), Storage.set_self]
  refine ⟨rfl, rfl, rfl, rfl, hlook, ?_⟩
  intro now2 hwin
  rw [verifyOTP_success _ email (generateOTP rand) (generateOTP rand)
    (now + 10 * 60 * 1000) now2 (validEmail_ne_empty email hv)
    (generateOTP_ne_empty rand) hlook hwin rfl]

/-- C7 witness: the failed-delivery issuance at a concrete state. -/
theorem delivery_failure_not_propagated_witness :
    validEmail "a@x.com" = true ∧
      cooldownActive Storage.empty "a@x.com" 1000000 = false ∧
      (sendOTP Storage.empty "a@x.com" 1000000 0 false).response.status = 200 :=
  ⟨by decide, by decide,
    (delivery_failure_not_propagated Storage.empty "a@x.com" 1000000 0
      (by decide) (by decide)).1⟩

/-- C8: the bulk loop attempts every recipient in order regardless of
per-recipient failures, the summary satisfies total = sent + failed, and the
3-recipient scenario with the 2nd failing yields summary {3, 2, 1} with the
3rd recipient attempted and marked sent. -/
theorem bulk_dispatch_isolates_failures (apps : List Recipient) (outcome : Nat → Bool) :
    ((sendBulkEmails apps outcome).results.map (fun r => r.applicationId) =
      apps.map (fun a => a.applicationId)) ∧
    ((sendBulkEmails apps outcome).summary.total =
      (sendBulkEmails apps outcome).summary.sent +
        (sendBulkEmails apps outcome).summary.failed) ∧
    (sendBulkEmails [⟨"A1", "a@x.com", "A"⟩, ⟨"A2", "b@x.com", "B"⟩,
        ⟨"A3", "c@x.com", "C"⟩] (fun i => i != 1)).summary = ⟨3, 2, 1⟩ ∧
    (sendBulkEmails [⟨"A1", "a@x.com", "A"⟩, ⟨"A2", "b@x.com", "B"⟩,
        ⟨"A3", "c@x.com", "C"⟩] (fun i => i != 1)).results =
      [⟨"A1", "a@x.com", .sent⟩, ⟨"A2", "b@x.com", .failed⟩,
        ⟨"A3", "c@x.com", .sent⟩] := by
  refine ⟨bulkResults_map apps outcome, ?_, by decide, by decide⟩
  exact length_filter_status (bulkResults apps outcome)

/-- C3 (amended): a second issuance within 60 seconds is rejected with 429
and no state change while the issuance-timestamp record is still present;
but a successful confirmation deletes that record, after which the cooldown
no longer applies and an immediate re-issuance succeeds. -/
theorem cooldown_tracks_timestamp_record (email : String)
    (hv : validEmail email = true) :
    (∀ st now rand d t, st (tsKey email) = some (.timestamp t) → t ≠ 0 →
      now - t < 60000 →
      (sendOTP st email now rand d).response.status = 429 ∧
        (sendOTP st email now rand d).storage = st) ∧
    (∀ st otp now, (verifyOTP st email otp now).outcome = .verified →
      (verifyOTP st email otp now).storage (tsKey email) = none ∧
      ∀ now2 rand d,
        (sendOTP ((verifyOTP st email otp now).storage) email now2 rand d).response.status
          = 200) := by
  constructor
  · intro st now rand d t ht ht0 hlt
    have hc : cooldownActive st email now = true := by
      simp [cooldownActive, ht, ht0, hlt]
    rw [sendOTP_limited st email now rand d hv hc]
    exact ⟨rfl, rfl⟩
  · intro st otp now hver
    rcases verifyOTP_cases st email otp now with h | ⟨_, hstor⟩
    · exact absurd hver h
    have hnone : (verifyOTP st email otp now).storage (tsKey email) = none := by
      rw [hstor, Storage.set_other _ _ _ _ (tsKey_ne_verKey email), Storage.del_self]
    refine ⟨hnone, ?_⟩
    intro now2 rand d
    have hc : cooldownActive (verifyOTP st email otp now).storage email now2 = false := by
      simp [cooldownActive, hnone]
    rw [sendOTP_issued _ email now2 rand d hv hc]

/-- C3 witness: the cooldown rejection at a concrete timestamped state. -/
theorem cooldown_tracks_timestamp_record_witness :
    validEmail "a@x.com" = true ∧
      (sendOTP (Storage.empty.set "a@x.com_timestamp" (.timestamp 1000000))
        "a@x.com" 1010000 0 true).response.status = 429 :=
  ⟨by decide,
    ((cooldown_tracks_timestamp_record "a@x.com" (by decide)).1
      (Storage.empty.set "a@x.com_timestamp" (.timestamp 1000000)) 1010000 0 true
      1000000 (by decide) (by decide) (by decide)).1⟩

/-- C3 counterexample: issue at time 1000000, confirm successfully with the
issued code at 1005000, then request again at 1010000 — only 10 seconds
after the most recent issuance. The claim demands RateLimited with no state
change; the code answers 200 and issues a fresh code. -/
theorem cooldown_lost_after_confirmation :
    (sendOTP (verifyOTP (sendOTP Storage.empty "a@x.com" 1000000 0 true).storage
      "a@x.com" (generateOTP 0) 1005000).storage "a@x.com" 1010000 0 true).response.status
      = 200 := by
  rw [sendOTP_issued Storage.empty "a@x.com" 1000000 0 true (by decide) (by decide)]
  have hlook : ((Storage.empty.set (normalizeEmail "a@x.com")
      (.otpData (generateOTP 0) (1000000 + 10 * 60 * 1000))).set
      (tsKey "a@x.com") (.timestamp 1000000)) (normalizeEmail "a@x.com") =
      some (.otpData (generateOTP 0) (1000000 + 10 * 60 * 1000)) := by
    rw [Storage.set_other _ _ _ _ (key_ne_tsKey "a@x.com"), Storage.set_self]
  rw [verifyOTP_success _ "a@x.com" (generateOTP 0) (generateOTP 0)
    (1000000 + 10 * 60 * 1000) 1005000 (by decide) (generateOTP_ne_empty 0) hlook
    (by norm_num) rfl]
  have hc : cooldownActive (((((Storage.empty.set (normalizeEmail "a@x.com")
      (.otpData (generateOTP 0) (1000000 + 10 * 60 * 1000))).set
      (tsKey "a@x.com") (.timestamp 1000000)).del (normalizeEmail "a@x.com")).del
      (tsKey "a@x.com")).set (verKey "a@x.com") .verifiedFlag) "a@x.com" 1010000
      = false := by
    simp [cooldownActive, Storage.set_other _ _ _ _ (tsKey_ne_verKey "a@x.com"),
      Storage.del_self]
  rw [sendOTP_issued _ "a@x.com" 1010000 0 true (by decide) hc]

/-- C1: after a submission succeeds (201, record persisted), the verified
flag for the address is cleared, and a second submission for the same
normalized address against the resulting storage — before any new
confirmation — is rejected 400 with the email-not-verified error and is not
persisted. -/
theorem verified_state_single_use (st : Storage) (db : List AppRecord)
    (req : SubmitRequest) (now : Nat) (persist : PersistOutcome)
    (h1 : (submitApplication st db req now persist).status = 201) :
    (submitApplication st db req now persist).storage (verKey req.email) = none ∧
      ∀ db2 req2 now2 persist2,
        normalizeEmail req2.email = normalizeEmail req.email →
        req2.multerError = false → req2.jsonParseOk = true →
        (submitApplication (submitApplication st db req now persist).storage
            db2 req2 now2 persist2).status = 400 ∧
          (submitApplication (submitApplication st db req now persist).storage
            db2 req2 now2 persist2).tag = .emailNotVerified ∧
          (submitApplication (submitApplication st db req now persist).storage
            db2 req2 now2 persist2).db = db2 := by
  rcases submitApplication_cases st db req now persist with ⟨hne, _, _, _⟩ |
    ⟨_, _, _, hstor, _⟩
  · exact absurd h1 hne
  have hkeynone : (submitApplication st db req now persist).storage (verKey req.email)
      = none := by
    rw [hstor, Storage.del_self]
  refine ⟨hkeynone, ?_⟩
  intro db2 req2 now2 persist2 hnorm hm2 hp2
  have hkey2 : verKey req2.email = verKey req.email := by
    simp only [verKey, hnorm]
  have hv2 : isTruthy ((submitApplication st db req now persist).storage
      (verKey req2.email)) = false := by
    rw [hkey2, hkeynone]
    rfl
  rw [submit_notVerified _ db2 req2 now2 persist2 hm2 hp2 hv2]
  exact ⟨rfl, rfl, rfl⟩

/-- C1 witness: a concrete verified submission that persists, after which
the verified key is gone. -/
theorem verified_state_single_use_witness :
    (submitApplication (Storage.empty.set "a@x.com_verified" .verifiedFlag) []
        ⟨false, true, "a@x.com", "true", some "doc.pdf",
          some [⟨"IIT", "BTech", "JEE", "2020", "90"⟩], some ["exp"]⟩
        1000000 (.ok "APP1")).status = 201 ∧
      (submitApplication (Storage.empty.set "a@x.com_verified" .verifiedFlag) []
        ⟨false, true, "a@x.com", "true", some "doc.pdf",
          some [⟨"IIT", "BTech", "JEE", "2020", "90"⟩], some ["exp"]⟩
        1000000 (.ok "APP1")).storage (verKey "a@x.com") = none :=
  ⟨by decide,
    (verified_state_single_use (Storage.empty.set "a@x.com_verified" .verifiedFlag) []
      ⟨false, true, "a@x.com", "true", some "doc.pdf",
        some [⟨"IIT", "BTech", "JEE", "2020", "90"⟩], some ["exp"]⟩
      1000000 (.ok "APP1") (by decide)).1⟩

/-- C2: a submission whose normalized email is not currently verified is
rejected 400 with the email-not-verified error, creates no record, leaves
the storage untouched, and ran the staged-file cleanup exactly when a file
was staged; moreover, across all runs, the database grows only when the
verified flag was set at entry. -/
theorem submission_requires_verification (st : Storage) (db : List AppRecord)
    (req : SubmitRequest) (now : Nat) (persist : PersistOutcome)
    (hm : req.multerError = false) (hp : req.jsonParseOk = true)
    (hv : isTruthy (st (verKey req.email)) = false) :
    (submitApplication st db req now persist).status = 400 ∧
      (submitApplication st db req now persist).tag = .emailNotVerified ∧
      (submitApplication st db req now persist).db = db ∧
      (submitApplication st db req now persist).storage = st ∧
      (submitApplication st db req now persist).fileDeleted = req.file.isSome ∧
      ∀ st' db' req' now' persist',
        (submitApplication st' db' req' now' persist').db ≠ db' →
        isTruthy (st' (verKey req'.email)) = true := by
  rw [submit_notVerified st db req now persist hm hp hv]
  refine ⟨rfl, rfl, rfl, rfl, rfl, ?_⟩
  intro st' db' req' now' persist' hdb
  rcases submitApplication_cases st' db' req' now' persist' with ⟨_, _, _, h⟩ |
    ⟨hver, _⟩
  · exact absurd h hdb
  · exact hver

/-- C2 witness: an unverified concrete submission is rejected with the
email-not-verified error. -/
theorem submission_requires_verification_witness :
    isTruthy (Storage.empty (verKey "a@x.com")) = false ∧
      (submitApplication Storage.empty []
        ⟨false, true, "a@x.com", "true", some "doc.pdf",
          some [⟨"IIT", "BTech", "JEE", "2020", "90"⟩], some ["exp"]⟩
        1000000 (.ok "APP1")).tag = .emailNotVerified :=
  ⟨by decide,
    (submission_requires_verification Storage.empty []
      ⟨false, true, "a@x.com", "true", some "doc.pdf",
        some [⟨"IIT", "BTech", "JEE", "2020", "90"⟩], some ["exp"]⟩
      1000000 (.ok "APP1") (by decide) (by decide) (by decide)).2.1⟩

/-- C9: a submission whose normalized email matches a record persisted
within the previous 24 hours is rejected 409 carrying the existing record's
id, even though the address is currently verified; the staged-file cleanup
ran exactly when a file was staged, and storage — hence the verified flag —
is left in place. -/
theorem duplicate_email_within_24h_conflict (st : Storage) (db : List AppRecord)
    (req : SubmitRequest) (now : Nat) (persist : PersistOutcome) (existing : AppRecord)
    (hm : req.multerError = false) (hp : req.jsonParseOk = true)
    (hv : isTruthy (st (verKey req.email)) = true)
    (hd : req.declarationAgreed = "true")
    (hfind : findRecentDuplicate db (normalizeEmail req.email) now = some existing) :
    (submitApplication st db req now persist).status = 409 ∧
      (submitApplication st db req now persist).tag = .duplicateEmail ∧
      (submitApplication st db req now persist).applicationId =
        some existing.applicationId ∧
      (submitApplication st db req now persist).fileDeleted = req.file.isSome ∧
      (submitApplication st db req now persist).storage = st ∧
      (submitApplication st db req now persist).db = db := by
  rw [submit_duplicate st db req now persist existing hm hp hv hd hfind]
  exact ⟨rfl, rfl, rfl, rfl, rfl, rfl⟩

/-- C9 witness: a verified resubmission 1 second after an existing record. -/
theorem duplicate_email_within_24h_conflict_witness :
    findRecentDuplicate [⟨"APP0", "a@x.com", 999000⟩] (normalizeEmail "a@x.com") 1000000
        = some ⟨"APP0", "a@x.com", 999000⟩ ∧
      (submitApplication (Storage.empty.set "a@x.com_verified" .verifiedFlag)
        [⟨"APP0", "a@x.com", 999000⟩]
        ⟨false, true, "a@x.com", "true", some "doc.pdf",
          some [⟨"IIT", "BTech", "JEE", "2020", "90"⟩], some ["exp"]⟩
        1000000 (.ok "APP1")).applicationId = some "APP0" :=
  ⟨by decide,
    (duplicate_email_within_24h_conflict
      (Storage.empty.set "a@x.com_verified" .verifiedFlag)
      [⟨"APP0", "a@x.com", 999000⟩]
      ⟨false, true, "a@x.com", "true", some "doc.pdf",
        some [⟨"IIT", "BTech", "JEE", "2020", "90"⟩], some ["exp"]⟩
      1000000 (.ok "APP1") ⟨"APP0", "a@x.com", 999000⟩
      (by decide) (by decide) (by decide) (by decide) (by decide)).2.2.1⟩

/-- C10: the verified flag is cleared only once the record is durably saved:
a run that does not return 201 leaves the storage — and so the verified
state — untouched, while a 201 run deletes exactly the verified key. -/
theorem verified_flag_cleared_only_after_save (st : Storage) (db : List AppRecord)
    (req : SubmitRequest) (now : Nat) (persist : PersistOutcome) (r : SubmitResult)
    (hr : r = submitApplication st db req now persist) :
    (r.status ≠ 201 → r.storage = st) ∧
      (r.status = 201 → r.storage = st.del (verKey req.email) ∧
        r.storage (verKey req.email) = none) := by
  subst hr
  rcases submitApplication_cases st db req now persist with ⟨hne, _, hstor, _⟩ |
    ⟨_, h201, _, hstor, _⟩
  · exact ⟨fun _ => hstor, fun h => absurd h hne⟩
  · refine ⟨fun h => absurd h201 h, fun _ => ⟨hstor, ?_⟩⟩
    rw [hstor, Storage.del_self]

/-- C10 witness: a rejection (failed persistence at a verified state) leaves
the storage untouched. -/
theorem verified_flag_cleared_only_after_save_witness :
    (submitApplication (Storage.empty.set "a@x.com_verified" .verifiedFlag) []
        ⟨false, true, "a@x.com", "true", some "doc.pdf",
          some [⟨"IIT", "BTech", "JEE", "2020", "90"⟩], some ["exp"]⟩
        1000000 .otherError).status ≠ 201 ∧
      (submitApplication (Storage.empty.set "a@x.com_verified" .verifiedFlag) []
        ⟨false, true, "a@x.com", "true", some "doc.pdf",
          some [⟨"IIT", "BTech", "JEE", "2020", "90"⟩], some ["exp"]⟩
        1000000 .otherError).storage =
        Storage.empty.set "a@x.com_verified" .verifiedFlag :=
  ⟨by decide,
    ((verified_flag_cleared_only_after_save
      (Storage.empty.set "a@x.com_verified" .verifiedFlag) []
      ⟨false, true, "a@x.com", "true", some "doc.pdf",
        some [⟨"IIT", "BTech", "JEE", "2020", "90"⟩], some ["exp"]⟩
      1000000 .otherError _ rfl).1 (by decide))⟩

end IITForm
